import Mathlib

/-!
Verification of the RSS-to-WordPress automation pipeline.

Shallow embedding of the repository's Python modules (`database.py`,
`feed_parser.py`, `ai_rewriter.py`, `image_handler.py`, `wordpress_api.py`,
`main.py`).  Text is modelled as `List Char`; Python `None`-able values as
`Option`; the SQLite table of `database.py` as a list of rows with a unique
`guid` key; external collaborators (feed fetch, the language model, the REST
backend) as explicit environment records.  Python exceptions, where a claim
depends on them, are modelled with `Except`.
-/

/-- Convenience: the character list of a string literal. -/
def str (s : String) : List Char := s.data

/-- Whitespace as matched by the regular-expression class backslash-s
(ASCII fragment): space, tab, newline, carriage return, vertical tab,
form feed. -/
def isReWs (c : Char) : Bool :=
  c = ' ' || c = '\t' || c = '\n' || c = '\r' || c = '\x0b' || c = '\x0c'

/-- Remove trailing whitespace (the right half of Python `str.strip()`). -/
def dropTrailingWs (l : List Char) : List Char :=
  (l.reverse.dropWhile isReWs).reverse

/-- Model of Python `str.strip()` (ASCII whitespace). -/
def pyStrip (l : List Char) : List Char :=
  dropTrailingWs (l.dropWhile isReWs)

/-- Python truthiness of an optional string: `None` and the empty string
are falsy. -/
def optTruthy : Option (List Char) → Bool
  | none => false
  | some s => !s.isEmpty

/-- Model of Python `a or b` on optional strings: yields `a` when `a` is
truthy, otherwise `b` (whatever it is). -/
def pyOrOpt (a b : Option (List Char)) : Option (List Char) :=
  if optTruthy a then a else b

/-!
Dedup Store: `database.py`.  The SQLite table `processed_entries` has a
UNIQUE `guid` column; an insert of a duplicate guid raises
`sqlite3.IntegrityError`, which `mark_processed` catches and logs
(database.py lines 70-94).  The table is modelled as an append-only list of
rows, insertion order preserved.
-/

/-- One row of the `processed_entries` table. -/
structure DedupRow where
  guid : List Char
  post_id : Int
  feed_url : Option (List Char)
  title : Option (List Char)
  processed_at : Int
deriving DecidableEq

/-- Model of `database.is_processed` (database.py lines 50-67): SELECT by guid. -/
def is_processed (db : List DedupRow) (guid : List Char) : Bool :=
  db.any (fun row => row.guid = guid)

/-- Model of `database.mark_processed` (database.py lines 70-94): INSERT the
row; on a duplicate guid the UNIQUE constraint fires `IntegrityError`,
which is caught, leaving the table unchanged. -/
def mark_processed (db : List DedupRow) (guid : List Char) (post_id : Int)
    (feed_url title : Option (List Char)) (now : Int) : List DedupRow :=
  if is_processed db guid then db
  else db ++ [⟨guid, post_id, feed_url, title, now⟩]

/-- Model of `database.get_processed_count` (database.py lines 97-111):
SELECT COUNT(*). -/
def get_processed_count (db : List DedupRow) : Nat :=
  db.length

/-- Model of `database.get_post_id_for_guid` (database.py lines 114-131):
SELECT post_id by guid (guid is unique, so the first match is the row). -/
def get_post_id_for_guid (db : List DedupRow) (guid : List Char) : Option Int :=
  (db.find? (fun row => row.guid = guid)).map (fun row => row.post_id)

/-!
Entry Normalizer: `feed_parser.py`.  A raw feedparser entry is modelled by
`RawEntry`; attribute lookups `getattr(entry, a, d)` become `Option` fields.
The network scrape of `_fetch_full_content` is modelled by two environment
fields carried on the raw entry: whether the HTTP fetch of the link succeeds
(`scrapeOk`), and the text each of the five ordered CSS selectors would
extract (`scrape`, one optional candidate per selector, in selector order).
-/

/-- A feedparser time field (`published_parsed` / `updated_parsed`):
absent, or present but failing `datetime.fromtimestamp(mktime(...))` with
`TypeError`/`ValueError`, or successfully converted to a timestamp. -/
inductive TimeField where
  | absent : TimeField
  | broken : TimeField
  | valid : Int → TimeField
deriving DecidableEq

/-- Publish-time resolution of `_parse_entry` (feed_parser.py lines 133-144):
try `published_parsed` first; a conversion error there is caught and leaves
`published = None` (the `elif` is not evaluated); only an absent
`published_parsed` falls through to `updated_parsed`. -/
def resolvePublished (pp up : TimeField) : Option Int :=
  match pp with
  | .valid t => some t
  | .broken => none
  | .absent =>
    match up with
    | .valid t => some t
    | _ => none

/-- The `FeedEntry` dataclass of feed_parser.py lines 19-28. -/
structure FeedEntry where
  guid : List Char
  title : List Char
  link : List Char
  published : Option Int
  summary : List Char
  content : List Char
  feed_url : List Char
deriving DecidableEq

/-- A raw feedparser entry together with the scrape environment of its link. -/
structure RawEntry where
  id? : Option (List Char)
  link? : Option (List Char)
  title? : Option (List Char)
  published_parsed : TimeField
  updated_parsed : TimeField
  summary? : Option (List Char)
  contentValues? : Option (List (List Char))
  scrapeOk : Bool
  scrape : List (Option (List Char))
deriving DecidableEq

/-- Selector loop of `_fetch_full_content` (feed_parser.py lines 58-66):
take the first selector whose extracted text has stripped length strictly
greater than 300; a matching selector with short text falls through to the
next selector. -/
def firstLongCandidate : List (Option (List Char)) → Option (List Char)
  | [] => none
  | none :: rest => firstLongCandidate rest
  | some t :: rest =>
    if 300 < (pyStrip t).length then some t else firstLongCandidate rest

/-- Model of `_fetch_full_content` (feed_parser.py lines 31-70): `None` when
the HTTP fetch fails (non-200 status or exception), otherwise the first
selector candidate whose stripped text exceeds 300 characters. -/
def fetch_full_content (scrapeOk : Bool) (cands : List (Option (List Char))) :
    Option (List Char) :=
  if scrapeOk then firstLongCandidate cands else none

/-- Body resolution of `_parse_entry` (feed_parser.py lines 146-154):
prefer `entry.content[0].get('value','')` when `entry.content` is present and
non-empty, falling back to the summary when the result is falsy. -/
def resolveBody (r : RawEntry) : List Char :=
  let c : List Char :=
    match r.contentValues? with
    | some (v :: _) => v
    | _ => []
  if c = [] then r.summary?.getD [] else c

/-- Model of `_parse_entry` (feed_parser.py lines 109-175): guid falls back
from `entry.id` to `entry.link` by Python `or`; an entry whose guid is falsy
is dropped; a resolved body shorter than 500 characters with a truthy link
triggers the best-effort scrape, whose truthy result replaces the body. -/
def parse_entry (r : RawEntry) (feed_url : List Char) : Option FeedEntry :=
  let guid := pyOrOpt r.id? r.link?
  if optTruthy guid = false then none
  else
    let title := r.title?.getD (str "Untitled")
    let link := r.link?.getD []
    let published := resolvePublished r.published_parsed r.updated_parsed
    let summary := r.summary?.getD []
    let content0 := resolveBody r
    let content :=
      if content0.length < 500 ∧ link ≠ [] then
        match fetch_full_content r.scrapeOk r.scrape with
        | some fc => if fc = [] then content0 else fc
        | none => content0
      else content0
    some ⟨guid.getD [], title, link, published, summary, content, feed_url⟩

/-- One configured feed URL with its fetch result; `none` models a
feed-level `feedparser.parse` failure (caught per feed, isolated). -/
structure FeedFetch where
  url : List Char
  result : Option (List RawEntry)
deriving DecidableEq

/-- Freshness cutoff of `fetch_feeds_with_raw` (feed_parser.py line 215):
`now - max_age_hours * 3600` when `max_age_hours` is truthy, else `0`. -/
def freshnessCutoff (maxAgeHours : Option Nat) (now : Int) : Int :=
  match maxAgeHours with
  | some h => if h ≠ 0 then now - (h : Int) * 3600 else 0
  | none => 0

/-- Per-entry freshness decision of `fetch_feeds_with_raw` (feed_parser.py
lines 234-239): an entry is skipped only when the window is truthy AND the
entry has a known publish time AND that time is strictly before the cutoff. -/
def keepByAge (maxAgeHours : Option Nat) (cutoff : Int) (published : Option Int) :
    Bool :=
  match maxAgeHours, published with
  | some h, some t => if h ≠ 0 then decide (cutoff ≤ t) else true
  | _, _ => true

/-- Model of `fetch_feeds_with_raw` (feed_parser.py lines 198-252): per feed,
take the first `maxEntries` raw entries, parse each, apply the freshness
filter, and collect `(parsed, raw)` pairs; failed feeds are skipped. -/
def fetch_feeds_with_raw (feeds : List FeedFetch) (maxEntries : Nat)
    (maxAgeHours : Option Nat) (now : Int) : List (FeedEntry × RawEntry) :=
  let cutoff := freshnessCutoff maxAgeHours now
  feeds.flatMap (fun f =>
    match f.result with
    | none => []
    | some entries =>
      (entries.take maxEntries).filterMap (fun r =>
        match parse_entry r f.url with
        | none => none
        | some e =>
          if keepByAge maxAgeHours cutoff e.published then some (e, r) else none))

/-!
Rewrite Engine, response parsing: `ai_rewriter.py`.  `_parse_json_response`
tries `json.loads` on the raw text, then on the contents of a fenced code
block, then on the first-brace-to-last-brace region.  `json.loads` (an
external library) is modelled by an executable JSON parser over `List Char`
that follows the JSON grammar: strict on structure, numbers kept as their
lexeme, escapes decoded.  The two regular expressions of ai_rewriter.py
lines 214 and 222 are modelled by explicit scans with the same semantics:
the fenced-block regex matches from the first triple-backtick, optionally
consumes a `json` tag, greedily consumes whitespace, lazily extends the
group up to the next triple-backtick, surrendering trailing whitespace to
the closing context; the brace regex spans the first left brace to the last
right brace.
-/

/-- The backtick character (96), written numerically. -/
def btChar : Char := Char.ofNat 96

/-- The left-brace character (123), written numerically. -/
def lbrace : Char := Char.ofNat 123

/-- The right-brace character (125), written numerically. -/
def rbrace : Char := Char.ofNat 125

/-- JSON values as produced by `json.loads`; numbers keep their source
lexeme, object members keep their textual order (lookups take the last
binding of a key, as a Python dict built by `json.loads` does). -/
inductive Json where
  | jnull : Json
  | jtrue : Json
  | jfalse : Json
  | jnum : List Char → Json
  | jstr : List Char → Json
  | jarr : List Json → Json
  | jobj : List (List Char × Json) → Json

/-- Whitespace accepted between JSON tokens by `json.loads`. -/
def isJsonWs (c : Char) : Bool :=
  c = ' ' || c = '\t' || c = '\n' || c = '\r'

/-- Value of one hexadecimal digit. -/
def hexVal (c : Char) : Option Nat :=
  if '0' ≤ c ∧ c ≤ '9' then some (c.toNat - 48)
  else if 'a' ≤ c ∧ c ≤ 'f' then some (c.toNat - 87)
  else if 'A' ≤ c ∧ c ≤ 'F' then some (c.toNat - 55)
  else none

/-- Single-character JSON string escapes. -/
def escChar (e : Char) : Option Char :=
  if e = '"' then some '"'
  else if e = '\\' then some '\\'
  else if e = '/' then some '/'
  else if e = 'b' then some '\x08'
  else if e = 'f' then some '\x0c'
  else if e = 'n' then some '\n'
  else if e = 'r' then some '\r'
  else if e = 't' then some '\t'
  else none

/-- JSON string body parser (the opening quote already consumed): returns
the decoded characters and the remainder after the closing quote.  Raw
control characters and invalid escapes are rejected, as in strict
`json.loads`. -/
def parseJsonString : Nat → List Char → Option (List Char × List Char)
  | 0, _ => none
  | _ + 1, [] => none
  | fuel + 1, c :: rest =>
    if c = '"' then some ([], rest)
    else if c = '\\' then
      match rest with
      | 'u' :: h1 :: h2 :: h3 :: h4 :: rest2 =>
        match hexVal h1, hexVal h2, hexVal h3, hexVal h4 with
        | some a, some b, some c2, some d =>
          (parseJsonString fuel rest2).map
            (fun p => (Char.ofNat (((a * 16 + b) * 16 + c2) * 16 + d) :: p.1, p.2))
        | _, _, _, _ => none
      | e :: rest2 =>
        match escChar e with
        | some d => (parseJsonString fuel rest2).map (fun p => (d :: p.1, p.2))
        | none => none
      | [] => none
    else if c.toNat < 32 then none
    else (parseJsonString fuel rest).map (fun p => (c :: p.1, p.2))

/-- JSON number lexer: `-? (0 | [1-9][0-9]*) (. [0-9]+)? ([eE][+-]?[0-9]+)?`;
returns the lexeme and the remainder. -/
def lexJsonNumber (cs : List Char) : Option (List Char × List Char) :=
  let signSplit : List Char × List Char :=
    match cs with
    | '-' :: t => ([('-' : Char)], t)
    | _ => ([], cs)
  match signSplit.2 with
  | [] => none
  | c :: t =>
    let intSplit : Option (List Char × List Char) :=
      if c = '0' then some ([c], t)
      else if c.isDigit then some (c :: t.takeWhile Char.isDigit, t.dropWhile Char.isDigit)
      else none
    match intSplit with
    | none => none
    | some (intPart, rest) =>
      let fracSplit : List Char × List Char :=
        match rest with
        | '.' :: u =>
          if u.takeWhile Char.isDigit = [] then ([], rest)
          else ('.' :: u.takeWhile Char.isDigit, u.dropWhile Char.isDigit)
        | _ => ([], rest)
      let rest2 := fracSplit.2
      let expSplit : List Char × List Char :=
        match rest2 with
        | e :: u =>
          if e = 'e' ∨ e = 'E' then
            match u with
            | s :: v =>
              if s = '+' ∨ s = '-' then
                if v.takeWhile Char.isDigit = [] then ([], rest2)
                else (e :: s :: v.takeWhile Char.isDigit, v.dropWhile Char.isDigit)
              else
                if u.takeWhile Char.isDigit = [] then ([], rest2)
                else (e :: u.takeWhile Char.isDigit, u.dropWhile Char.isDigit)
            | [] => ([], rest2)
          else ([], rest2)
        | [] => ([], rest2)
      some (signSplit.1 ++ intPart ++ fracSplit.1 ++ expSplit.1, expSplit.2)

mutual

/-- JSON value parser (fueled): skips leading whitespace, dispatches on the
first character. -/
def parseJsonValue : Nat → List Char → Option (Json × List Char)
  | 0, _ => none
  | fuel + 1, cs =>
    match cs.dropWhile isJsonWs with
    | [] => none
    | c :: rest =>
      if c = lbrace then parseJsonObj fuel rest
      else if c = '[' then parseJsonArr fuel rest
      else if c = '"' then
        (parseJsonString fuel rest).map (fun p => (Json.jstr p.1, p.2))
      else if c = 't' then
        if rest.take 3 = str "rue" then some (Json.jtrue, rest.drop 3) else none
      else if c = 'f' then
        if rest.take 4 = str "alse" then some (Json.jfalse, rest.drop 4) else none
      else if c = 'n' then
        if rest.take 3 = str "ull" then some (Json.jnull, rest.drop 3) else none
      else if c = '-' || c.isDigit then
        (lexJsonNumber (c :: rest)).map (fun p => (Json.jnum p.1, p.2))
      else none

/-- Array parser, after the opening bracket. -/
def parseJsonArr : Nat → List Char → Option (Json × List Char)
  | 0, _ => none
  | fuel + 1, cs =>
    match cs.dropWhile isJsonWs with
    | ']' :: rest => some (Json.jarr [], rest)
    | _ =>
      match parseJsonValue fuel cs with
      | none => none
      | some (v, rest) =>
        match parseJsonArrRest fuel rest with
        | none => none
        | some (vs, rest2) => some (Json.jarr (v :: vs), rest2)

/-- Array continuation: comma-separated items up to the closing bracket. -/
def parseJsonArrRest : Nat → List Char → Option (List Json × List Char)
  | 0, _ => none
  | fuel + 1, cs =>
    match cs.dropWhile isJsonWs with
    | ']' :: rest => some ([], rest)
    | ',' :: rest =>
      match parseJsonValue fuel rest with
      | none => none
      | some (v, rest2) =>
        (parseJsonArrRest fuel rest2).map (fun p => (v :: p.1, p.2))
    | _ => none

/-- One `"key": value` member. -/
def parseJsonMember : Nat → List Char → Option ((List Char × Json) × List Char)
  | 0, _ => none
  | fuel + 1, cs =>
    match cs.dropWhile isJsonWs with
    | c :: rest =>
      if c = '"' then
        match parseJsonString fuel rest with
        | none => none
        | some (k, rest2) =>
          match rest2.dropWhile isJsonWs with
          | ':' :: rest3 =>
            (parseJsonValue fuel rest3).map (fun p => ((k, p.1), p.2))
          | _ => none
      else none
    | [] => none

/-- Object parser, after the opening brace. -/
def parseJsonObj : Nat → List Char → Option (Json × List Char)
  | 0, _ => none
  | fuel + 1, cs =>
    match cs.dropWhile isJsonWs with
    | c :: rest =>
      if c = rbrace then some (Json.jobj [], rest)
      else
        match parseJsonMember fuel cs with
        | none => none
        | some (kv, rest2) =>
          (parseJsonObjRest fuel rest2).map (fun p => (Json.jobj (kv :: p.1), p.2))
    | [] => none

/-- Object continuation: comma-separated members up to the closing brace. -/
def parseJsonObjRest : Nat → List Char → Option (List (List Char × Json) × List Char)
  | 0, _ => none
  | fuel + 1, cs =>
    match cs.dropWhile isJsonWs with
    | c :: rest =>
      if c = rbrace then some ([], rest)
      else if c = ',' then
        match parseJsonMember fuel rest with
        | none => none
        | some (kv, rest2) =>
          (parseJsonObjRest fuel rest2).map (fun p => (kv :: p.1, p.2))
      else none
    | [] => none

end

/-- Model of `json.loads`: parse one JSON value and require only trailing
whitespace after it.  The fuel is generous for the input length. -/
def jsonParse (cs : List Char) : Option Json :=
  match parseJsonValue (2 * cs.length + 2) cs with
  | some (j, rest) => if rest.dropWhile isJsonWs = [] then some j else none
  | none => none

/-- Does the list begin with a triple backtick? -/
def fenceAt (l : List Char) : Bool :=
  l.take 3 = str "```"

/-- Scan to the first triple backtick; return what follows it. -/
def splitAtFence : List Char → Option (List Char)
  | [] => none
  | c :: rest =>
    if fenceAt (c :: rest) then some ((c :: rest).drop 3) else splitAtFence rest

/-- Does a triple backtick occur anywhere in the list? -/
def hasFence : List Char → Bool
  | [] => false
  | c :: rest => fenceAt (c :: rest) || hasFence rest

/-- Characters before the first triple backtick, `none` when there is no
triple backtick. -/
def takeUntilFence : List Char → Option (List Char)
  | [] => none
  | c :: rest =>
    if fenceAt (c :: rest) then some []
    else (takeUntilFence rest).map (fun l => c :: l)

/-- Consume an optional `json` language tag (the `(?:json)?` of the regex). -/
def dropJsonTag (l : List Char) : List Char :=
  if l.take 4 = str "json" then l.drop 4 else l

/-- Model of the fenced-code-block extraction regex of ai_rewriter.py line
214: group(1) is the text between the first fence (after the optional
`json` tag and greedy leading whitespace) and the next fence, with trailing
whitespace surrendered by the lazy group. -/
def extractFenced (resp : List Char) : Option (List Char) :=
  match splitAtFence resp with
  | none => none
  | some afterOpen =>
    match takeUntilFence ((dropJsonTag afterOpen).dropWhile isReWs) with
    | none => none
    | some inner => some (dropTrailingWs inner)

/-- Model of the brace-region regex of ai_rewriter.py line 222: the span
from the first left brace to the last right brace, when that span is
non-empty. -/
def extractBraces (resp : List Char) : Option (List Char) :=
  match resp.dropWhile (fun c => !(c = lbrace : Bool)) with
  | [] => none
  | l =>
    match l.reverse.dropWhile (fun c => !(c = rbrace : Bool)) with
    | [] => none
    | kept => some kept.reverse

/-- Model of `_parse_json_response` (ai_rewriter.py lines 194-230): empty
input is rejected, then direct parse, then fenced-block parse, then
brace-region parse. -/
def parse_json_response (t : List Char) : Option Json :=
  if t = [] then none
  else
    match jsonParse t with
    | some j => some j
    | none =>
      match (extractFenced t).bind jsonParse with
      | some j => some j
      | none => (extractBraces t).bind jsonParse

/-- Model of Python character lowercasing for the ASCII range: letters A-Z
map to a-z, everything else is unchanged. -/
def pyLower (c : Char) : Char :=
  if 65 ≤ c.toNat ∧ c.toNat ≤ 90 then Char.ofNat (c.toNat + 32) else c

/-- Model of Python `str.lower()` over the ASCII range. -/
def pyLowerL (l : List Char) : List Char := l.map pyLower

/-- Substring test (Python `in` on strings): does `pat` occur contiguously? -/
def containsSub (pat : List Char) : List Char → Bool
  | [] => pat.isEmpty
  | c :: rest => pat.isPrefixOf (c :: rest) || containsSub pat rest

/-- Greedy tail of the blank-line separator regex (newline, any whitespace,
newline), applied after the initial newline: consume whitespace up to and
including the last newline of the maximal whitespace prefix; fail when that
prefix contains no newline. -/
def matchSepTail (l : List Char) : Option (List Char) :=
  let w := l.takeWhile isReWs
  match w.reverse.findIdx? (fun c => c = '\n') with
  | some i => some (l.drop (w.length - i))
  | none => none

/-- Leftmost match of the blank-line separator of ai_rewriter.py line 251:
the text before the separator and the text after it, or `none` when the
text has no blank-line break. -/
def findBlankSep : List Char → Option (List Char × List Char)
  | [] => none
  | c :: rest =>
    if c = '\n' then
      match matchSepTail rest with
      | some rest2 => some ([], rest2)
      | none => (findBlankSep rest).map (fun p => (c :: p.1, p.2))
    else (findBlankSep rest).map (fun p => (c :: p.1, p.2))

/-- Model of `re.split` on the blank-line pattern (fueled; each separator
consumes at least two characters, so input length suffices as fuel). -/
def pySplitBlank : Nat → List Char → List (List Char)
  | 0, l => [l]
  | fuel + 1, l =>
    match findBlankSep l with
    | none => [l]
    | some (before, after) => before :: pySplitBlank fuel after

/-- Model of `_ensure_html_paragraphs` (ai_rewriter.py lines 233-257): falsy
text maps to the empty string; text already containing a paragraph or div
tag (case-insensitively) is returned unchanged; otherwise the text is split
on blank lines, segments are stripped, empty segments dropped, and each
remaining segment wrapped in a paragraph element; with no surviving
segment the whole original text is wrapped in one paragraph element. -/
def ensure_html_paragraphs (text : List Char) : List Char :=
  if text = [] then []
  else if containsSub (str "<p>") (pyLowerL text)
      || containsSub (str "<div>") (pyLowerL text) then text
  else
    let paragraphs := (pySplitBlank (text.length + 1) text).map pyStrip
    let paragraphs := paragraphs.filter (fun p => p ≠ [])
    if paragraphs = [] then str "<p>" ++ text ++ str "</p>"
    else
      List.intercalate (str "\n")
        (paragraphs.map (fun p => str "<p>" ++ p ++ str "</p>"))

/-!
Image Resolver: `image_handler.py`.  The stock-photo search-query builder
`create_search_query` is pure; the word extraction regex (word-boundary,
three or more ASCII letters, word-boundary) applied to the lowercased title
matches exactly the maximal word-character runs that consist entirely of
ASCII letters and have length at least 3 (a letter run adjacent to a digit
or underscore has no word boundary there and is not matched).
-/

/-- ASCII letter test, by code point. -/
def isAsciiAlpha (c : Char) : Bool :=
  (97 ≤ c.toNat && c.toNat ≤ 122) || (65 ≤ c.toNat && c.toNat ≤ 90)

/-- Word characters of the regex word-boundary class (ASCII fragment). -/
def isWordChar (c : Char) : Bool :=
  isAsciiAlpha c || c.isDigit || c = '_'

/-- Maximal runs of characters satisfying `p`, in order (fueled; the input
length suffices as fuel). -/
def runsOf (p : Char → Bool) : Nat → List Char → List (List Char)
  | 0, _ => []
  | _ + 1, [] => []
  | fuel + 1, c :: rest =>
    if p c then (c :: rest.takeWhile p) :: runsOf p fuel (rest.dropWhile p)
    else runsOf p fuel rest

/-- The stop-word set of `create_search_query` (image_handler.py lines
171-183). -/
def stop_words : List (List Char) :=
  [str "a", str "an", str "the", str "and", str "or", str "but", str "in",
   str "on", str "at", str "to", str "for",
   str "of", str "with", str "by", str "from", str "is", str "are",
   str "was", str "were", str "be", str "been",
   str "being", str "have", str "has", str "had", str "do", str "does",
   str "did", str "will", str "would",
   str "could", str "should", str "may", str "might", str "must",
   str "shall", str "can", str "need",
   str "this", str "that", str "these", str "those", str "it", str "its",
   str "as", str "if", str "when",
   str "where", str "how", str "what", str "which", str "who", str "whom",
   str "why", str "so", str "than",
   str "too", str "very", str "just", str "also", str "now", str "here",
   str "there", str "then", str "some",
   str "any", str "all", str "both", str "each", str "few", str "more",
   str "most", str "other", str "into",
   str "over", str "after", str "before", str "between", str "under",
   str "again", str "further",
   str "once", str "during", str "out", str "up", str "down", str "off",
   str "about", str "only", str "same",
   str "new", str "says", str "said", str "announces", str "announced",
   str "reports", str "reported"]

/-- Model of the word extraction of image_handler.py line 186: maximal
word-character runs of the lowercased title that are entirely alphabetic
and at least 3 characters long. -/
def search_words (title : List Char) : List (List Char) :=
  (runsOf isWordChar (pyLowerL title).length (pyLowerL title)).filter
    (fun w => w.all isAsciiAlpha && decide (3 ≤ w.length))

/-- The keyword selection of image_handler.py line 187: drop stop words,
keep the first three. -/
def search_keywords (title : List Char) : List (List Char) :=
  ((search_words title).filter (fun w => !(stop_words.contains w))).take 3

/-- Model of `create_search_query` (image_handler.py lines 160-193). -/
def create_search_query (title : List Char) : List Char :=
  if search_keywords title = [] then str "news"
  else List.intercalate (str " ") (search_keywords title)

/-- A scrape candidate of exactly 300 non-whitespace characters: long enough
for an "at least 300" reading, rejected by the code's strict `> 300` test. -/
def c5Text300 : List Char := List.replicate 300 'a'

/-- A scrape candidate of 301 non-whitespace characters, accepted by the
code's strict `> 300` test. -/
def c5Text301 : List Char := List.replicate 301 'b'

/-- A raw entry with a short body, a truthy link, a successful page fetch and
a single selector candidate of exactly 300 characters. -/
def c5Raw : RawEntry :=
  ⟨some (str "g"), some (str "http://x"), some (str "T"), .absent, .absent,
    some [], some [str "short body"], true, [some c5Text300]⟩

/-- Same raw entry with a 301-character selector candidate. -/
def c5RawAccepted : RawEntry :=
  ⟨some (str "g"), some (str "http://x"), some (str "T"), .absent, .absent,
    some [], some [str "short body"], true, [some c5Text301]⟩

/-- A raw entry with no resolvable publish time. -/
def c8RawNone : RawEntry :=
  ⟨some (str "g1"), some (str "http://1"), some (str "T1"), .absent, .absent,
    some (str "sum1"), none, false, []⟩

/-- A raw entry published inside the freshness window (for `now = 1000000`,
window 24 h). -/
def c8RawFresh : RawEntry :=
  ⟨some (str "g2"), some (str "http://2"), some (str "T2"), .valid 999000,
    .absent, some (str "sum2"), none, false, []⟩

/-- A raw entry published well before the freshness cutoff. -/
def c8RawStale : RawEntry :=
  ⟨some (str "g3"), some (str "http://3"), some (str "T3"), .valid 1000,
    .absent, some (str "sum3"), none, false, []⟩

/-- The single-feed batch used by the C8 witness. -/
def c8Feeds : List FeedFetch :=
  [⟨str "u", some [c8RawNone, c8RawFresh, c8RawStale]⟩]

/-!
Rewrite Engine: `ai_rewriter.py`, `rewrite_article` (lines 63-170).  The
whole function body sits in one `try` whose `except Exception` handler
returns `None`; only a `BaseException` (such as `KeyboardInterrupt`) would
escape it.  Exceptions are modelled with `Except`: the repository's own
raise sites are ordinary exceptions (`OrdExc`); the model collaborator may
in principle raise anything (`PyExc`).  `_strip_html` contains its own
catch-all with a regex fallback and never raises, so it is modelled as a
total environment function; the request prompt is a fixed template around
the cleaned content, so the collaborator's behaviour is modelled as a
function of that content.
-/

/-- Ordinary exceptions (subclasses of `Exception`). -/
inductive OrdExc where
  | requestError : OrdExc
  | indexError : OrdExc
  | attributeError : OrdExc
  | typeError : OrdExc
  | valueError : OrdExc
  | otherError : OrdExc
deriving DecidableEq

/-- Python exceptions as seen by an `except Exception` handler: ordinary
exceptions are caught; `KeyboardInterrupt` (a `BaseException`) is not. -/
inductive PyExc where
  | ord : OrdExc → PyExc
  | keyboardInterrupt : PyExc
deriving DecidableEq

/-- The `RewrittenArticle` dataclass (ai_rewriter.py lines 16-22).  The
dataclass is untyped, so headline and category hold whatever JSON values
the model produced; the body has been normalized to text and the tags
coerced to strings. -/
structure RewrittenArticle where
  headline : Json
  body : List Char
  category : Json
  tags : List (List Char)

/-- Is a JSON number lexeme zero (all mantissa digits 0)? -/
def numIsZero (lex : List Char) : Bool :=
  ((lex.takeWhile (fun c => c ≠ 'e' ∧ c ≠ 'E')).filter Char.isDigit).all
    (fun c => c = '0')

/-- Python truthiness of a `json.loads` value. -/
def truthyJson : Json → Bool
  | .jnull => false
  | .jtrue => true
  | .jfalse => false
  | .jnum lex => !(numIsZero lex)
  | .jstr s => !s.isEmpty
  | .jarr xs => !xs.isEmpty
  | .jobj kvs => !kvs.isEmpty

/-- Coarse model of Python `str()` on a `json.loads` value (exact for
strings, the only case the repository feeds realistic data through). -/
def pyStr : Json → List Char
  | .jstr s => s
  | .jnum lex => lex
  | .jtrue => str "True"
  | .jfalse => str "False"
  | .jnull => str "None"
  | .jarr _ => str "[...]"
  | .jobj _ => str "\x7b...\x7d"

/-- Dict lookup on parsed JSON members: the last binding of a key wins, as
in a Python dict built from a member list. -/
def jLookup (kvs : List (List Char × Json)) (k : List Char) : Option Json :=
  (kvs.reverse.find? (fun p => p.1 = k)).map (fun p => p.2)

/-- Tag coercion of ai_rewriter.py lines 152-154: a string becomes a
singleton list; a list is filtered by truthiness and its members pass
through `str(tag).lower().strip()`; a dict iterates its keys; iterating a
non-iterable (number, bool, null) raises TypeError. -/
def coerceTags : Json → Except OrdExc (List (List Char))
  | .jstr s => pure (if s = [] then [] else [pyStrip (pyLowerL s)])
  | .jarr xs => pure (xs.filterMap (fun t =>
      if truthyJson t then some (pyStrip (pyLowerL (pyStr t))) else none))
  | .jobj kvs => pure (kvs.filterMap (fun kv =>
      if kv.1 ≠ [] then some (pyStrip (pyLowerL kv.1)) else none))
  | _ => throw OrdExc.typeError

/-- `_ensure_html_paragraphs` applied to the raw `body` value: any falsy
value returns the empty string before the tag check; a truthy non-string
raises AttributeError at `text.lower()`. -/
def ensureHtmlParagraphsJson (b : Json) : Except OrdExc (List Char) :=
  if truthyJson b = false then pure []
  else
    match b with
    | .jstr s => pure (ensure_html_paragraphs s)
    | _ => throw OrdExc.attributeError

/-- Values accepting Python slice syntax (`headline[:60]` in the success
log, ai_rewriter.py line 159): strings and lists do, other JSON values
raise TypeError. -/
def sliceableJson : Json → Bool
  | .jstr _ => true
  | .jarr _ => true
  | _ => false

/-- `_parse_json_response` including its falsy-input guard (`None` or empty
text returns `None`). -/
def parseJsonResponseOpt : Option (List Char) → Option Json
  | none => none
  | some t => parse_json_response t

/-- Truncation of ai_rewriter.py lines 92-94: hard cutoff at 8000
characters with an appended ellipsis. -/
def truncateContent (clean : List Char) : List Char :=
  if 8000 < clean.length then clean.take 8000 ++ str "..." else clean

/-- The rewrite engine's collaborators: `_strip_html` (total, it has its
own catch-all fallback) and the model request of lines 126-136 — the call
plus `response.choices[0].message.content`, whose result may be a raised
exception or an optional content string. -/
structure ModelEnv where
  stripHtml : List Char → List Char
  modelCall : List Char → Except PyExc (Option (List Char))

/-- Response handling of `rewrite_article` after the model call
(ai_rewriter.py lines 139-166): parse cascade, field extraction with
defaults, tag coercion, body normalization, the sliced-headline success
log, and the assembled dataclass. -/
def afterResponse (title : List Char) (respText : Option (List Char)) :
    Except OrdExc (Option RewrittenArticle) :=
  match parseJsonResponseOpt respText with
  | none => pure none
  | some data =>
    match data with
    | .jobj kvs => do
      let headline := (jLookup kvs (str "headline")).getD (.jstr title)
      let bodyJson := (jLookup kvs (str "body")).getD (.jstr [])
      let category := (jLookup kvs (str "category")).getD (.jstr (str "News"))
      let tagsJson := (jLookup kvs (str "tags")).getD (.jarr [])
      let tags ← coerceTags tagsJson
      let body ← ensureHtmlParagraphsJson bodyJson
      if sliceableJson headline then
        pure (some ⟨headline, body, category, tags⟩)
      else
        throw OrdExc.typeError
    | _ => throw OrdExc.attributeError

/-- The `try` body of `rewrite_article` (ai_rewriter.py lines 83-166):
strip, substitute the title for an empty cleaned body, truncate, issue the
model call, handle the response.  The repository's own raise sites are all
ordinary exceptions. -/
def rewrite_article_body (title content _link : List Char) (env : ModelEnv) :
    Except PyExc (Option RewrittenArticle) :=
  let clean0 := env.stripHtml content
  let clean1 := if (pyStrip clean0).isEmpty then title else clean0
  let cleanContent := truncateContent clean1
  match env.modelCall cleanContent with
  | .error e => .error e
  | .ok respText =>
    match afterResponse title respText with
    | .ok v => .ok v
    | .error e => .error (.ord e)

/-- Model of `rewrite_article` (ai_rewriter.py lines 63-170): the body in
its `try`, with `except Exception` turning every ordinary exception into
`None`; a `BaseException` is not caught and propagates. -/
def rewrite_article (title content link : List Char) (env : ModelEnv) :
    Except PyExc (Option RewrittenArticle) :=
  match rewrite_article_body title content link env with
  | .ok v => .ok v
  | .error (.ord _) => .ok none
  | .error .keyboardInterrupt => .error .keyboardInterrupt

/-!
Orchestrator: `main.py`, with the Publisher of `wordpress_api.py` as an
environment.  `process_single_entry` (main.py lines 49-140) calls
`get_or_create_image` with a keyword argument `openai_client` (line 93)
that the function's signature (image_handler.py lines 278-283) does not
accept, so the call raises TypeError before the image logic runs; the
entry-level `except Exception` (line 138) turns that into `None`.  Call
binding is modelled by the parameter and keyword lists taken from the two
files and the rule that every keyword must name a formal parameter.
-/

/-- Formal parameters of `get_or_create_image` (image_handler.py lines
278-283). -/
def getOrCreateImageParams : List (List Char) :=
  [str "raw_entry", str "title", str "content", str "image_dir"]

/-- Keyword arguments of the call at main.py lines 89-95. -/
def getOrCreateImageCallKeywords : List (List Char) :=
  [str "raw_entry", str "title", str "content", str "openai_client",
   str "image_dir"]

/-- Python call binding for a function without `**kwargs`: the call raises
TypeError unless every keyword argument names a formal parameter. -/
def kwargsAccepted (params kwargs : List (List Char)) : Bool :=
  kwargs.all (fun k => params.contains k)

/-- Collaborator behaviour for one entry: the rewrite result, what
`get_or_create_image` would return if it could be called, the resolved
taxonomy ids, the media upload result per path, and the post-creation
result. -/
structure EntryEnv where
  rewriteResult : Option RewrittenArticle
  imageResult : Option (List Char)
  taxonomy : List Int × List Int
  uploadResult : List Char → Option Int
  createPostResult : Option Int

/-- Observable outcome of `process_single_entry`: the returned post id and
which effects happened. -/
structure EntryOutcome where
  postId : Option Int
  imageCallRaised : Bool
  createPostCalled : Bool
  featuredMediaArg : Option Int
  categoryIdsArg : List Int
  tagIdsArg : List Int
deriving DecidableEq

/-- Model of `process_single_entry` (main.py lines 49-140): rewrite, then
the image call — which raises TypeError on the `openai_client` keyword and
is caught by the blanket handler — then (were the call accepted) taxonomy,
optional upload, and post creation. -/
def process_single_entry (env : EntryEnv) : EntryOutcome :=
  match env.rewriteResult with
  | none => ⟨none, false, false, none, [], []⟩
  | some _ =>
    if kwargsAccepted getOrCreateImageParams getOrCreateImageCallKeywords then
      let catIds := env.taxonomy.1
      let tagIds := env.taxonomy.2
      let mediaId : Option Int :=
        match env.imageResult with
        | some path => env.uploadResult path
        | none => none
      match env.createPostResult with
      | some pid => ⟨some pid, false, true, mediaId, catIds, tagIds⟩
      | none => ⟨none, false, true, mediaId, catIds, tagIds⟩
    else
      ⟨none, true, false, none, [], []⟩

/-- The notification projection (email_notifier.py / main.py lines 218-224). -/
structure PublishedArticle where
  headline : List Char
  source_url : List Char
  wordpress_url : List Char
  post_id : Int
deriving DecidableEq

/-- One run's environment: the Publisher's connection check, the configured
feeds with their fetch results, clocks, the site URL, and per-entry
collaborator behaviour keyed by guid. -/
structure RunEnv where
  testConnection : Bool
  feeds : List FeedFetch
  now : Int
  nowStamp : Int
  wpUrl : List Char
  entryEnv : List Char → EntryEnv

/-- Observable outcome of `run_feed_processing`: the returned triple, plus
whether the feed fetch was reached and the final dedup store. -/
structure RunOutcome where
  processed : Nat
  errors : Nat
  published : List PublishedArticle
  fetchAttempted : Bool
  db : List DedupRow
deriving DecidableEq

/-- The per-entry loop of main.py lines 197-233: a successful entry records
the dedup row and appends a notification projection; a failed one counts
an error. -/
def runLoop (env : RunEnv) :
    List (FeedEntry × RawEntry) → Nat → Nat → List PublishedArticle →
      List DedupRow → Nat × Nat × List PublishedArticle × List DedupRow
  | [], p, e, pubs, db => (p, e, pubs, db)
  | (entry, _) :: rest, p, e, pubs, db =>
    let oc := process_single_entry (env.entryEnv entry.guid)
    match oc.postId with
    | some pid =>
      runLoop env rest (p + 1) e
        (pubs ++ [⟨entry.title.take 100, entry.link,
          env.wpUrl ++ str "/?p=" ++ (toString pid).data, pid⟩])
        (mark_processed db entry.guid pid (some entry.feed_url)
          (some entry.title) env.nowStamp)
    | none => runLoop env rest p (e + 1) pubs db

/-- Model of `run_feed_processing` (main.py lines 143-238): the Publisher's
connection check gates everything — on failure the run returns
`(0, 1, [])` with no feed fetched; otherwise feeds are fetched with the
24-hour window, already-processed entries are filtered out, and the
remaining entries run through the loop. -/
def run_feed_processing (env : RunEnv) (db : List DedupRow) : RunOutcome :=
  if env.testConnection = false then ⟨0, 1, [], false, db⟩
  else
    let fetched := fetch_feeds_with_raw env.feeds 5 (some 24) env.now
    let newEntries := fetched.filter (fun er => !(is_processed db er.1.guid))
    if newEntries.isEmpty then ⟨0, 0, [], true, db⟩
    else
      let result := runLoop env newEntries 0 0 [] db
      ⟨result.1, result.2.1, result.2.2.1, true, result.2.2.2⟩

/-- A rewritten article used by the C2 and C3 environments. -/
def c2Article : RewrittenArticle :=
  ⟨Json.jstr (str "Headline"), str "<p>body</p>", Json.jstr (str "News"),
    [str "tag"]⟩

/-- A fresh, parseable raw entry for the C2 run. -/
def c2Raw : RawEntry :=
  ⟨some (str "guid-1"), some (str "http://article"), some (str "Title"),
    .absent, .absent, some (str "summary text"), none, false, []⟩

/-- Entry behaviour for C2: rewrite succeeds, image resolution would yield
nothing, taxonomy resolves, upload would succeed, post creation would
succeed. -/
def c2EntryEnv : EntryEnv :=
  ⟨some c2Article, none, ([1], [2]), fun _ => some 5, some 7⟩

/-- Run environment for C2: connection fine, one feed with one fresh entry. -/
def c2Env : RunEnv :=
  ⟨true, [⟨str "http://feed", some [c2Raw]⟩], 0, 0, str "http://wp",
    fun _ => c2EntryEnv⟩

/-- Run environment for the C3 witness: the connection check fails. -/
def c3Env : RunEnv :=
  ⟨false, [⟨str "http://feed", some [c2Raw]⟩], 0, 0, str "http://wp",
    fun _ => c2EntryEnv⟩

/-- Model environment for the C9 witness: the model call fails with a
network error. -/
def c9Env : ModelEnv :=
  ⟨fun l => l, fun _ => .error (PyExc.ord OrdExc.requestError)⟩

/-- C1.  The Dedup Store's record operation is idempotent: recording the same
identifier a second time, with arbitrary other arguments, leaves the store
contents unchanged, hence leaves `count()` unchanged and does not alter the
post id stored by the first call. -/
theorem c1_record_idempotent (db : List DedupRow) (guid : List Char)
    (p1 p2 : Int) (f1 f2 t1 t2 : Option (List Char)) (a1 a2 : Int) :
    mark_processed (mark_processed db guid p1 f1 t1 a1) guid p2 f2 t2 a2
        = mark_processed db guid p1 f1 t1 a1
    ∧ get_processed_count
          (mark_processed (mark_processed db guid p1 f1 t1 a1) guid p2 f2 t2 a2)
        = get_processed_count (mark_processed db guid p1 f1 t1 a1)
    ∧ get_post_id_for_guid
          (mark_processed (mark_processed db guid p1 f1 t1 a1) guid p2 f2 t2 a2) guid
        = get_post_id_for_guid (mark_processed db guid p1 f1 t1 a1) guid := by
  have hseen : is_processed (mark_processed db guid p1 f1 t1 a1) guid = true := by
    by_cases h : is_processed db guid = true
    · rw [mark_processed, if_pos h]; exact h
    · rw [mark_processed, if_neg (by simp [h])]
      simp [is_processed, List.any_append]
  have hfix : mark_processed (mark_processed db guid p1 f1 t1 a1) guid p2 f2 t2 a2
      = mark_processed db guid p1 f1 t1 a1 := by
    rw [mark_processed, if_pos hseen]
  exact ⟨hfix, by rw [hfix], by rw [hfix]⟩

/-- Helper: a successful `firstLongCandidate` result always has stripped
length strictly greater than 300. -/
theorem firstLongCandidate_long :
    ∀ (cands : List (Option (List Char))) (t : List Char),
      firstLongCandidate cands = some t → 300 < (pyStrip t).length := by
  intro cands
  induction cands with
  | nil => intro t h; simp [firstLongCandidate] at h
  | cons c rest ih =>
    intro t h
    cases c with
    | none => exact ih t (by simpa [firstLongCandidate] using h)
    | some s =>
      by_cases hlen : 300 < (pyStrip s).length
      · have : s = t := by simpa [firstLongCandidate, hlen] using h
        subst this; exact hlen
      · exact ih t (by simpa [firstLongCandidate, hlen] using h)

/-- Helper: stripping never lengthens a string. -/
theorem pyStrip_length_le (l : List Char) : (pyStrip l).length ≤ l.length := by
  unfold pyStrip dropTrailingWs
  calc ((l.dropWhile isReWs).reverse.dropWhile isReWs).reverse.length
      = ((l.dropWhile isReWs).reverse.dropWhile isReWs).length := by
        rw [List.length_reverse]
    _ ≤ (l.dropWhile isReWs).reverse.length := (List.dropWhile_sublist _).length_le
    _ = (l.dropWhile isReWs).length := by rw [List.length_reverse]
    _ ≤ l.length := (List.dropWhile_sublist _).length_le

/-- C4.  Identifier resolution of the Normalizer: the guid is the native id
when that is present (truthy), else the link when that is present; an entry
with neither is dropped. -/
theorem c4_identifier_resolution (r : RawEntry) (u : List Char) :
    (optTruthy r.id? = true →
      (parse_entry r u).map FeedEntry.guid = some (r.id?.getD []))
    ∧ (optTruthy r.id? = false → optTruthy r.link? = true →
      (parse_entry r u).map FeedEntry.guid = some (r.link?.getD []))
    ∧ (optTruthy r.id? = false → optTruthy r.link? = false →
      parse_entry r u = none) := by
  refine ⟨?_, ?_, ?_⟩
  · intro h
    simp [parse_entry, pyOrOpt, h]
  · intro h1 h2
    simp [parse_entry, pyOrOpt, h1, h2]
  · intro h1 h2
    simp [parse_entry, pyOrOpt, h1, h2]

/-- Witness for C4 at three concrete raw entries: id present, id absent with
link present, and neither present. -/
theorem c4_identifier_resolution_witness :
    (parse_entry
        ⟨some (str "gid"), some (str "http://l"), none, .absent, .absent,
          none, none, false, []⟩ (str "u")).map FeedEntry.guid
      = some (str "gid")
    ∧ (parse_entry
        ⟨none, some (str "http://l"), none, .absent, .absent,
          none, none, false, []⟩ (str "u")).map FeedEntry.guid
      = some (str "http://l")
    ∧ parse_entry
        ⟨some [], none, none, .absent, .absent, none, none, false, []⟩
        (str "u")
      = none :=
  ⟨(c4_identifier_resolution _ _).1 (by decide),
   (c4_identifier_resolution _ _).2.1 (by decide) (by decide),
   (c4_identifier_resolution _ _).2.2 (by decide) (by decide)⟩

set_option maxRecDepth 8000 in
/-- C5 counterexample.  An entry with a 10-character body, a non-empty link,
and a scrape whose only selector candidate has exactly 300 characters of
stripped text (hence "at least 300" holds) keeps the original short body:
the code accepts a candidate only when its stripped length strictly exceeds
300 (feed_parser.py line 62). -/
theorem c5_at_least_300_counterexample :
    (resolveBody c5Raw).length < 500
    ∧ c5Raw.link?.getD [] ≠ []
    ∧ c5Raw.scrapeOk = true
    ∧ c5Raw.scrape = [some c5Text300]
    ∧ 300 ≤ (pyStrip c5Text300).length
    ∧ (parse_entry c5Raw (str "u")).map FeedEntry.content = some (str "short body")
    ∧ str "short body" ≠ c5Text300 := by
  refine ⟨by decide, by decide, by decide, by decide, by decide, ?_, by decide⟩
  decide

/-- C5 (amended).  For every entry whose resolved body is shorter than 500
characters and whose link is non-empty, if the scrape succeeds — which the
code decides by requiring strictly more than 300 characters of stripped
selector text — the produced FeedEntry's body is the scraped text. -/
theorem c5_scrape_replaces_short_body (r : RawEntry) (u t : List Char)
    (hshort : (resolveBody r).length < 500)
    (hlink : r.link?.getD [] ≠ [])
    (hscrape : fetch_full_content r.scrapeOk r.scrape = some t) :
    (parse_entry r u).map FeedEntry.content = some t
    ∧ 300 < (pyStrip t).length := by
  have hlong : 300 < (pyStrip t).length := by
    unfold fetch_full_content at hscrape
    by_cases hok : r.scrapeOk = true
    · exact firstLongCandidate_long _ _ (by simpa [hok] using hscrape)
    · simp [hok] at hscrape
  have htne : t ≠ [] := by
    intro h0
    rw [h0] at hlong
    simp [pyStrip, dropTrailingWs] at hlong
  have hl : optTruthy r.link? = true := by
    cases hc : r.link? with
    | none => rw [hc] at hlink; simp at hlink
    | some s =>
      rw [hc] at hlink
      simp at hlink
      simp [optTruthy, hlink]
  have hguid : optTruthy (pyOrOpt r.id? r.link?) = true := by
    unfold pyOrOpt
    by_cases hid : optTruthy r.id? = true
    · simp [hid]
    · simp [hid, hl]
  refine ⟨?_, hlong⟩
  simp [parse_entry, hguid, hshort, hlink, hscrape, htne]

set_option maxRecDepth 8000 in
/-- Witness for C5 (amended) at a concrete entry whose scrape candidate has
301 characters. -/
theorem c5_scrape_replaces_short_body_witness :
    (parse_entry c5RawAccepted (str "u")).map FeedEntry.content = some c5Text301
    ∧ 300 < (pyStrip c5Text301).length :=
  c5_scrape_replaces_short_body c5RawAccepted (str "u") c5Text301
    (by decide) (by decide) (by decide)

/-- C8.  With a freshness window enabled, a parsed entry from the first
`maxE` raw entries of a fetched feed is kept whenever its publish time is
unknown, is kept whenever its known publish time is at or after the cutoff
`now - h * 3600`, and can only be missing from the batch when its publish
time is known and strictly older than the cutoff. -/
theorem c8_freshness_filter (feeds : List FeedFetch) (maxE h : Nat)
    (now : Int) (f : FeedFetch) (es : List RawEntry) (r : RawEntry)
    (e : FeedEntry) (hh : h ≠ 0) (hf : f ∈ feeds) (hes : f.result = some es)
    (hr : r ∈ es.take maxE) (hp : parse_entry r f.url = some e) :
    (e.published = none →
      (e, r) ∈ fetch_feeds_with_raw feeds maxE (some h) now)
    ∧ (∀ t, e.published = some t → now - (h : Int) * 3600 ≤ t →
      (e, r) ∈ fetch_feeds_with_raw feeds maxE (some h) now)
    ∧ ((e, r) ∉ fetch_feeds_with_raw feeds maxE (some h) now →
      ∃ t, e.published = some t ∧ t < now - (h : Int) * 3600) := by
  have hcut : freshnessCutoff (some h) now = now - (h : Int) * 3600 := by
    simp [freshnessCutoff, hh]
  have hmem : keepByAge (some h) (now - (h : Int) * 3600) e.published = true →
      (e, r) ∈ fetch_feeds_with_raw feeds maxE (some h) now := by
    intro hk
    unfold fetch_feeds_with_raw
    rw [hcut]
    refine List.mem_flatMap.2 ⟨f, hf, ?_⟩
    rw [hes]
    refine List.mem_filterMap.2 ⟨r, hr, ?_⟩
    rw [hp]
    simp [hk]
  refine ⟨?_, ?_, ?_⟩
  · intro hnone
    exact hmem (by simp [keepByAge, hnone])
  · intro t ht hfresh
    exact hmem (by simp [keepByAge, ht, hh, hfresh])
  · intro hnot
    cases hp2 : e.published with
    | none => exact absurd (hmem (by simp [keepByAge, hp2])) hnot
    | some t =>
      by_cases hfresh : now - (h : Int) * 3600 ≤ t
      · exact absurd (hmem (by simp [keepByAge, hp2, hh, hfresh])) hnot
      · exact ⟨t, rfl, by omega⟩

/-- Witness for C8 on a three-entry feed: the entry without a publish time
and the fresh entry are kept; the stale entry is known-stale. -/
theorem c8_freshness_filter_witness :
    ((⟨str "g1", str "T1", str "http://1", none, str "sum1", str "sum1",
        str "u"⟩ : FeedEntry), c8RawNone)
      ∈ fetch_feeds_with_raw c8Feeds 5 (some 24) 1000000
    ∧ ((⟨str "g2", str "T2", str "http://2", some 999000, str "sum2",
        str "sum2", str "u"⟩ : FeedEntry), c8RawFresh)
      ∈ fetch_feeds_with_raw c8Feeds 5 (some 24) 1000000
    ∧ ∃ t, (⟨str "g3", str "T3", str "http://3", some 1000, str "sum3",
        str "sum3", str "u"⟩ : FeedEntry).published = some t
        ∧ t < 1000000 - (24 : Int) * 3600 :=
  ⟨(c8_freshness_filter c8Feeds 5 24 1000000
      ⟨str "u", some [c8RawNone, c8RawFresh, c8RawStale]⟩
      [c8RawNone, c8RawFresh, c8RawStale] c8RawNone
      ⟨str "g1", str "T1", str "http://1", none, str "sum1", str "sum1",
        str "u"⟩
      (by decide) (by decide) rfl (by decide) (by decide)).1 rfl,
   (c8_freshness_filter c8Feeds 5 24 1000000
      ⟨str "u", some [c8RawNone, c8RawFresh, c8RawStale]⟩
      [c8RawNone, c8RawFresh, c8RawStale] c8RawFresh
      ⟨str "g2", str "T2", str "http://2", some 999000, str "sum2",
        str "sum2", str "u"⟩
      (by decide) (by decide) rfl (by decide) (by decide)).2.1 999000 rfl
      (by decide),
   (c8_freshness_filter c8Feeds 5 24 1000000
      ⟨str "u", some [c8RawNone, c8RawFresh, c8RawStale]⟩
      [c8RawNone, c8RawFresh, c8RawStale] c8RawStale
      ⟨str "g3", str "T3", str "http://3", some 1000, str "sum3",
        str "sum3", str "u"⟩
      (by decide) (by decide) rfl (by decide) (by decide)).2.2 (by decide)⟩

/-- Helper: no JSON value can start with a backtick, so the dispatch of the
value parser fails on it at any fuel. -/
theorem parseJsonValue_backtick (fuel : Nat) (cs : List Char) :
    parseJsonValue fuel (btChar :: cs) = none := by
  cases fuel with
  | zero => rfl
  | succ n => rfl

/-- Helper: the model of `json.loads` rejects any text that starts with a
backtick. -/
theorem jsonParse_backtick (cs : List Char) : jsonParse (btChar :: cs) = none := by
  unfold jsonParse
  rw [parseJsonValue_backtick]

/-- Helper: a triple backtick is a fence wherever it starts. -/
theorem fenceAt_cons3 (X : List Char) :
    fenceAt (btChar :: btChar :: btChar :: X) = true := by
  simp only [fenceAt, decide_eq_true_eq]
  exact (by decide : ([btChar, btChar, btChar] : List Char) = str "```")

/-- Helper: scanning a string that opens with a fence returns its tail. -/
theorem splitAtFence_at_start (X : List Char) :
    splitAtFence (str "```" ++ X) = some X := by
  show splitAtFence (btChar :: btChar :: btChar :: X) = some X
  rw [splitAtFence, if_pos (by simpa using fenceAt_cons3 X)]
  rfl

/-- Helper: the optional language tag is consumed when present. -/
theorem dropJsonTag_json (Y : List Char) :
    dropJsonTag (str "json" ++ Y) = Y := by
  have h4 : (str "json" ++ Y).take 4 = str "json" := by
    rw [List.take_append_of_le_length (by decide)]
    decide
  rw [dropJsonTag, if_pos h4]
  rfl

/-- Helper: scanning up to the closing fence returns exactly the enclosed
text, provided no fence occurs earlier (including at the seam). -/
theorem takeUntilFence_closes :
    ∀ l : List Char, hasFence (l ++ str "``") = false →
      takeUntilFence (l ++ str "```") = some l := by
  intro l
  induction l with
  | nil =>
    intro _
    show takeUntilFence (btChar :: btChar :: btChar :: []) = some []
    rw [takeUntilFence, if_pos (by simpa using fenceAt_cons3 [])]
  | cons c t ih =>
    intro h
    have h' : (fenceAt (c :: (t ++ str "``"))
        || hasFence (t ++ str "``")) = false := by
      have hh : hasFence (c :: (t ++ str "``")) = false := h
      rw [hasFence] at hh
      exact hh
    have h1 : fenceAt (c :: (t ++ str "``")) = false := by
      cases hx : fenceAt (c :: (t ++ str "``")) with
      | true => rw [hx] at h'; simp at h'
      | false => rfl
    have h2 : hasFence (t ++ str "``") = false := by
      cases hx : hasFence (t ++ str "``") with
      | true => rw [hx] at h'; simp at h'
      | false => rfl
    have hlen : 3 ≤ (c :: (t ++ str "``")).length := by
      simp only [List.length_cons, List.length_append]
      have hl2 : (str "``").length = 2 := by decide
      omega
    have hb : fenceAt (c :: (t ++ str "```")) = fenceAt (c :: (t ++ str "``")) := by
      have hsplit : str "```" = str "``" ++ (btChar :: []) := by decide
      rw [hsplit, ← List.append_assoc]
      simp only [fenceAt]
      rw [show (c :: ((t ++ str "``") ++ (btChar :: [])))
          = (c :: (t ++ str "``")) ++ (btChar :: []) from rfl]
      rw [List.take_append_of_le_length hlen]
    show takeUntilFence (c :: (t ++ str "```")) = some (c :: t)
    rw [takeUntilFence, if_neg (by rw [hb, h1]; simp), ih h2]
    rfl

/-- Helper: trailing whitespace after a text whose last character is not
whitespace strips back to the text. -/
theorem dropTrailingWs_append_ws (b w : List Char)
    (hw : ∀ c ∈ w, isReWs c = true) (hb : b ≠ [])
    (hlast : ∀ c, b.getLast? = some c → isReWs c = false) :
    dropTrailingWs (b ++ w) = b := by
  unfold dropTrailingWs
  rw [List.reverse_append]
  rw [List.dropWhile_append_of_pos (by
    intro a ha
    exact hw a (List.mem_reverse.1 ha))]
  obtain ⟨c, t, hct⟩ : ∃ c t, b.reverse = c :: t := by
    cases hbr : b.reverse with
    | nil =>
      have : b = [] := by
        have := congrArg List.reverse hbr
        simpa using this
      exact absurd this hb
    | cons c t => exact ⟨c, t, rfl⟩
  have hc : isReWs c = false := by
    apply hlast
    rw [← List.head?_reverse, hct]
    rfl
  rw [hct, List.dropWhile_cons_of_neg (by simp [hc]), ← hct, List.reverse_reverse]

/-- C6.  A model response that is a fenced code block wrapping valid JSON —
optionally tagged `json`, whitespace-padded, the wrapped text non-empty,
not whitespace-flanked, fence-free, and (when untagged) not beginning with
a `json` tag of its own — parses through the three-tier cascade to exactly
the object obtained by parsing the unwrapped JSON text directly: the direct
tier fails on the backtick, and the fenced tier recovers the wrapped text
verbatim. -/
theorem c6_fenced_json_roundtrip (hasJson : Bool) (ws1 ws2 body : List Char)
    (j : Json)
    (hw1 : ∀ c ∈ ws1, isReWs c = true)
    (hw2 : ∀ c ∈ ws2, isReWs c = true)
    (hne : body ≠ [])
    (hhead : ∀ c, body.head? = some c → isReWs c = false)
    (hlast : ∀ c, body.getLast? = some c → isReWs c = false)
    (hnofence : hasFence (body ++ ws2 ++ str "``") = false)
    (htag : hasJson = false → (ws1 ++ body ++ ws2 ++ str "```").take 4 ≠ str "json")
    (hparse : jsonParse body = some j) :
    parse_json_response
        (str "```" ++ (if hasJson then str "json" else [])
          ++ ws1 ++ body ++ ws2 ++ str "```")
      = jsonParse body := by
  have hassoc :
      str "```" ++ (if hasJson then str "json" else [])
          ++ ws1 ++ body ++ ws2 ++ str "```"
        = str "```" ++ ((if hasJson then str "json" else [])
          ++ (ws1 ++ (body ++ (ws2 ++ str "```")))) := by
    simp [List.append_assoc]
  rw [hassoc]
  have hdropTag : dropJsonTag ((if hasJson then str "json" else [])
      ++ (ws1 ++ (body ++ (ws2 ++ str "```"))))
      = ws1 ++ (body ++ (ws2 ++ str "```")) := by
    cases hasJson with
    | true => simpa using dropJsonTag_json (ws1 ++ (body ++ (ws2 ++ str "```")))
    | false =>
      have hne4 : ¬ (ws1 ++ (body ++ (ws2 ++ str "```"))).take 4 = str "json" := by
        have := htag rfl
        simpa [List.append_assoc] using this
      simp [dropJsonTag, hne4]
  have hdropWs : (ws1 ++ (body ++ (ws2 ++ str "```"))).dropWhile isReWs
      = body ++ (ws2 ++ str "```") := by
    rw [List.dropWhile_append_of_pos hw1]
    cases body with
    | nil => exact absurd rfl hne
    | cons c t =>
      have hc : isReWs c = false := hhead c rfl
      show (c :: (t ++ (ws2 ++ str "```"))).dropWhile isReWs
          = (c :: t) ++ (ws2 ++ str "```")
      rw [List.dropWhile_cons_of_neg (by simp [hc])]
      rfl
  have hfence2 : hasFence ((body ++ ws2) ++ str "``") = false := by
    simpa [List.append_assoc] using hnofence
  have htake : takeUntilFence ((body ++ ws2) ++ str "```") = some (body ++ ws2) :=
    takeUntilFence_closes (body ++ ws2) hfence2
  have hextract : extractFenced (str "```" ++ ((if hasJson then str "json" else [])
      ++ (ws1 ++ (body ++ (ws2 ++ str "```"))))) = some body := by
    unfold extractFenced
    rw [splitAtFence_at_start]
    show (match takeUntilFence ((dropJsonTag ((if hasJson then str "json" else [])
        ++ (ws1 ++ (body ++ (ws2 ++ str "```"))))).dropWhile isReWs) with
      | none => none
      | some inner => some (dropTrailingWs inner)) = some body
    rw [hdropTag, hdropWs,
      show body ++ (ws2 ++ str "```") = (body ++ ws2) ++ str "```" from
        (List.append_assoc body ws2 (str "```")).symm,
      htake]
    show some (dropTrailingWs (body ++ ws2)) = some body
    rw [dropTrailingWs_append_ws body ws2 hw2 hne hlast]
  have h1 : jsonParse (str "```" ++ ((if hasJson then str "json" else [])
      ++ (ws1 ++ (body ++ (ws2 ++ str "```"))))) = none := by
    show jsonParse (btChar :: (btChar :: btChar ::
      ((if hasJson then str "json" else [])
        ++ (ws1 ++ (body ++ (ws2 ++ str "```")))))) = none
    exact jsonParse_backtick _
  have hne0 : ¬ (str "```" ++ ((if hasJson then str "json" else [])
      ++ (ws1 ++ (body ++ (ws2 ++ str "```"))))) = ([] : List Char) := by
    show ¬ (btChar :: (btChar :: btChar ::
      ((if hasJson then str "json" else [])
        ++ (ws1 ++ (body ++ (ws2 ++ str "```")))))) = ([] : List Char)
    simp
  rw [parse_json_response, if_neg hne0, h1, hextract]
  show (match jsonParse body with
      | some j => some j
      | none =>
        (extractBraces (str "```" ++ ((if hasJson then str "json" else [])
          ++ (ws1 ++ (body ++ (ws2 ++ str "```")))))).bind jsonParse)
      = jsonParse body
  rw [hparse]

/-- Witness for C6: the fenced response wrapping the object text parses to
the same object as the unwrapped text. -/
theorem c6_fenced_json_roundtrip_witness :
    parse_json_response (str "```" ++ (if true then str "json" else [])
        ++ str "\n" ++ str "\x7b\"a\":1\x7d" ++ str "\n" ++ str "```")
      = jsonParse (str "\x7b\"a\":1\x7d") :=
  c6_fenced_json_roundtrip true (str "\n") (str "\n") (str "\x7b\"a\":1\x7d")
    (Json.jobj [(str "a", Json.jnum (str "1"))])
    (by decide) (by decide) (by decide)
    (by
      intro c hc
      have h0 : (str "\x7b\"a\":1\x7d").head? = some lbrace := rfl
      rw [h0] at hc
      rw [(Option.some.inj hc).symm]
      decide)
    (by
      intro c hc
      have h0 : (str "\x7b\"a\":1\x7d").getLast? = some rbrace := rfl
      rw [h0] at hc
      rw [(Option.some.inj hc).symm]
      decide)
    (by decide)
    (by intro h; exact absurd h (by decide))
    rfl

/-- C7.  A non-empty body with no blank-line break and no existing paragraph
or div markup is wrapped in exactly one paragraph element: the element
contains the stripped text when stripping leaves something, and the
original text itself when the body was all whitespace. -/
theorem c7_single_paragraph_wrap (text : List Char)
    (h1 : text ≠ [])
    (h2 : containsSub (str "<p>") (pyLowerL text) = false)
    (h3 : containsSub (str "<div>") (pyLowerL text) = false)
    (h4 : findBlankSep text = none) :
    (pyStrip text ≠ [] ∧
      ensure_html_paragraphs text = str "<p>" ++ pyStrip text ++ str "</p>")
    ∨ (pyStrip text = [] ∧
      ensure_html_paragraphs text = str "<p>" ++ text ++ str "</p>") := by
  have hsplit : pySplitBlank (text.length + 1) text = [text] := by
    rw [pySplitBlank, h4]
  have hcond : ¬ (containsSub (str "<p>") (pyLowerL text)
      || containsSub (str "<div>") (pyLowerL text)) = true := by
    simp [h2, h3]
  by_cases hstrip : pyStrip text = []
  · right
    refine ⟨hstrip, ?_⟩
    rw [ensure_html_paragraphs, if_neg h1, if_neg hcond]
    simp only [hsplit, List.map_cons, List.map_nil, hstrip]
    simp
  · left
    refine ⟨hstrip, ?_⟩
    rw [ensure_html_paragraphs, if_neg h1, if_neg hcond]
    simp only [hsplit, List.map_cons, List.map_nil]
    rw [List.filter_cons_of_pos (by simp [hstrip])]
    simp only [List.filter_nil]
    rw [if_neg (by simp)]
    simp [List.intercalate]

/-- Witness for C7 at a concrete one-line body. -/
theorem c7_single_paragraph_wrap_witness :
    (pyStrip (str "hello world") ≠ [] ∧
      ensure_html_paragraphs (str "hello world")
        = str "<p>" ++ pyStrip (str "hello world") ++ str "</p>")
    ∨ (pyStrip (str "hello world") = [] ∧
      ensure_html_paragraphs (str "hello world")
        = str "<p>" ++ str "hello world" ++ str "</p>") :=
  c7_single_paragraph_wrap (str "hello world")
    (by decide) (by decide) (by decide) (by decide)

/-- Helper: packing a small code point is faithful. -/
theorem toNat_ofNat_valid (n : Nat) (h : n < 55296) : (Char.ofNat n).toNat = n := by
  have hv : n.isValidChar := Or.inl h
  rw [Char.ofNat, dif_pos hv]
  rfl

/-- Helper: every character of every run comes from the scanned text. -/
theorem mem_runsOf_subset (p : Char → Bool) :
    ∀ (n : Nat) (l : List Char), ∀ w ∈ runsOf p n l, ∀ c ∈ w, c ∈ l := by
  intro n
  induction n with
  | zero => intro l w hw; simp [runsOf] at hw
  | succ m ih =>
    intro l w hw c hc
    cases l with
    | nil => simp [runsOf] at hw
    | cons a t =>
      by_cases hpa : p a = true
      · rw [runsOf, if_pos hpa] at hw
        rcases List.mem_cons.1 hw with h1 | h2
        · subst h1
          rcases List.mem_cons.1 hc with h3 | h4
          · subst h3; exact List.mem_cons_self _ _
          · exact List.mem_cons_of_mem _ ((List.takeWhile_sublist p).mem h4)
        · have := ih (t.dropWhile p) w h2 c hc
          exact List.mem_cons_of_mem _ ((List.dropWhile_sublist p).mem this)
      · rw [runsOf, if_neg hpa] at hw
        exact List.mem_cons_of_mem _ (ih t w hw c hc)

/-- Helper: a lowered character that is an ASCII letter lies in a-z
(code points 97-122). -/
theorem pyLower_lower_of_alpha (c : Char)
    (h : isAsciiAlpha (pyLower c) = true) :
    97 ≤ (pyLower c).toNat ∧ (pyLower c).toNat ≤ 122 := by
  unfold pyLower at h ⊢
  by_cases hc : 65 ≤ c.toNat ∧ c.toNat ≤ 90
  · rw [if_pos hc] at h ⊢
    have ht : (Char.ofNat (c.toNat + 32)).toNat = c.toNat + 32 :=
      toNat_ofNat_valid _ (by omega)
    rw [ht]
    omega
  · rw [if_neg hc] at h ⊢
    unfold isAsciiAlpha at h
    simp only [Bool.or_eq_true, Bool.and_eq_true, decide_eq_true_eq] at h
    rcases h with h1 | h2
    · exact h1
    · exact absurd ⟨h2.1, h2.2⟩ hc

/-- C10.  When no alphabetic word of at least 3 letters survives the
stop-word filter, the stock-photo query builder returns the literal
fallback `news`; otherwise it returns its keywords — at most 3 non-stopword
all-letter terms of length at least 3 whose characters are lowercase
(code points 97-122) — joined by spaces. -/
theorem c10_search_query (title : List Char) :
    (search_keywords title = [] → create_search_query title = str "news")
    ∧ (search_keywords title ≠ [] →
        create_search_query title
          = List.intercalate (str " ") (search_keywords title)
        ∧ (search_keywords title).length ≤ 3
        ∧ ∀ w ∈ search_keywords title,
            stop_words.contains w = false
            ∧ w.all isAsciiAlpha = true
            ∧ 3 ≤ w.length
            ∧ ∀ c ∈ w, 97 ≤ c.toNat ∧ c.toNat ≤ 122) := by
  constructor
  · intro h
    rw [create_search_query, if_pos h]
  · intro h
    refine ⟨by rw [create_search_query, if_neg h], ?_, ?_⟩
    · have : (search_keywords title).length
          = (((search_words title).filter
              (fun w => !(stop_words.contains w))).take 3).length := rfl
      rw [this, List.length_take]
      omega
    · intro w hw
      have hwtake : w ∈ (search_words title).filter
          (fun w => !(stop_words.contains w)) :=
        List.mem_of_mem_take hw
      have hwfilter := List.mem_filter.1 hwtake
      have hsw := List.mem_filter.1 hwfilter.1
      have hrun : w ∈ runsOf isWordChar (pyLowerL title).length (pyLowerL title) :=
        hsw.1
      have hprops := hsw.2
      simp only [Bool.and_eq_true, decide_eq_true_eq] at hprops
      refine ⟨by simpa using hwfilter.2, hprops.1, hprops.2, ?_⟩
      intro c hc
      have hmem : c ∈ pyLowerL title :=
        mem_runsOf_subset _ _ _ w hrun c hc
      obtain ⟨c0, _, hc0⟩ := List.mem_map.1 hmem
      have halpha : isAsciiAlpha c = true := by
        have := List.all_eq_true.1 hprops.1 c hc
        simpa using this
      rw [← hc0] at halpha ⊢
      exact pyLower_lower_of_alpha c0 halpha

/-- Witness for C10: a title of pure stop words falls back to `news`; a
mixed title yields its keywords joined by spaces. -/
theorem c10_search_query_witness :
    create_search_query (str "A To Be") = str "news"
    ∧ create_search_query (str "The Mayor Announces New Budget Plan")
        = List.intercalate (str " ")
            (search_keywords (str "The Mayor Announces New Budget Plan")) :=
  ⟨(c10_search_query _).1 (by decide),
   ((c10_search_query _).2 (by decide)).1⟩

/-- C9.  The Rewrite Engine is total at its interface: for every input and
every collaborator behaviour within the claim's scope — a network error or
other ordinary exception, a malformed response, an empty response — the
function returns an ordinary value (`RewrittenArticle` or `None`) and never
propagates an exception. -/
theorem c9_rewrite_total (title content link : List Char) (env : ModelEnv)
    (hcollab : ∀ prompt, env.modelCall prompt ≠ .error PyExc.keyboardInterrupt) :
    ∃ v, rewrite_article title content link env = .ok v := by
  unfold rewrite_article rewrite_article_body
  split
  · exact ⟨_, rfl⟩
  · exact ⟨none, rfl⟩
  · rename_i h
    replace h : (match env.modelCall (truncateContent
        (if (pyStrip (env.stripHtml content)).isEmpty then title
          else env.stripHtml content)) with
      | Except.error e => Except.error e
      | Except.ok respText =>
        match afterResponse title respText with
        | Except.ok v => Except.ok v
        | Except.error e => Except.error (PyExc.ord e))
        = Except.error PyExc.keyboardInterrupt := h
    split at h
    · rename_i hmod
      injection h with h2
      rw [h2] at hmod
      exact absurd hmod (hcollab _)
    · rename_i t hmod
      split at h
      · exact Except.noConfusion h
      · injection h with h2
        exact PyExc.noConfusion h2

/-- Witness for C9: a model call that raises a network error still yields a
plain `None` result. -/
theorem c9_rewrite_total_witness :
    ∃ v, rewrite_article (str "T") (str "C") (str "http://l") c9Env = .ok v :=
  c9_rewrite_total (str "T") (str "C") (str "http://l") c9Env
    (by
      intro p h
      exact PyExc.noConfusion (Except.error.inj h))

/-- C3.  When the Publisher's connection check fails at PREFLIGHT, the run
returns the triple `(0, 1, [])`, the feed fetch is never reached, and the
dedup store is untouched. -/
theorem c3_preflight_abort (env : RunEnv) (db : List DedupRow)
    (h : env.testConnection = false) :
    run_feed_processing env db = ⟨0, 1, [], false, db⟩ := by
  rw [run_feed_processing, if_pos h]

/-- Witness for C3 at a concrete environment whose connection check fails. -/
theorem c3_preflight_abort_witness :
    run_feed_processing c3Env [] = ⟨0, 1, [], false, []⟩ :=
  c3_preflight_abort c3Env [] rfl

/-- C2 (code bug).  At an entry whose rewrite succeeds, whose taxonomy and
post creation would succeed, and whose image resolution would simply find
no image, the orchestrator does not create the post: the call to
`get_or_create_image` passes the keyword `openai_client`, which the
function does not accept, so the call raises TypeError, the blanket
handler returns `None`, and the run counts one error, records nothing, and
publishes nothing — against both the claim and the code's own
"continuing without featured image" path. -/
theorem c2_image_call_type_error :
    kwargsAccepted getOrCreateImageParams getOrCreateImageCallKeywords = false
    ∧ process_single_entry c2EntryEnv = ⟨none, true, false, none, [], []⟩
    ∧ run_feed_processing c2Env [] = ⟨0, 1, [], true, []⟩ :=
  ⟨rfl, rfl, rfl⟩
